import Mathlib

/-!
Verification development for the VegaMCP FastAPI bridge
(`src/integration/vegamcp_bridge.py`).

The file shallowly embeds the bridge function `call_mcp_tool` and the
route-layer argument construction.  JSON values are modelled by the
inductive type `Json`; the external `json` library (`json.loads`) is
modelled by the executable parser `jsonLoads` over the JSON fragment the
bridge exchanges (objects, arrays, strings with the common escapes,
integers, booleans, null).  Python string operations used by the source
(`str.strip`, `str.split`, slicing) are re-implemented structurally on
character lists so that all definitions evaluate inside the kernel.

The subprocess is modelled by its observable behaviour (`ProcBehavior`):
it either fails to spawn, produces no reply within the 30-second budget,
or completes with an exit code and captured stdout/stderr texts.  The
bridge additionally records a trace of process-management events
(`Event`) so that spawn/teardown claims can be stated.
-/

/-- JSON-compatible values exchanged between the route layer, the bridge
and the tool server. Objects keep insertion order, like Python dicts. -/
inductive Json where
  | null
  | bool (b : Bool)
  | num (n : Int)
  | str (s : String)
  | arr (elems : List Json)
  | obj (fields : List (String × Json))

mutual

/-- Structural equality of JSON values, modelling Python `==` as used by
`in` on lists. -/
def jsonBeq : Json → Json → Bool
  | .null, .null => true
  | .bool a, .bool b => a == b
  | .num a, .num b => a == b
  | .str a, .str b => a == b
  | .arr a, .arr b => jsonBeqL a b
  | .obj a, .obj b => jsonBeqO a b
  | _, _ => false

def jsonBeqL : List Json → List Json → Bool
  | [], [] => true
  | x :: xs, y :: ys => jsonBeq x y && jsonBeqL xs ys
  | _, _ => false

def jsonBeqO : List (String × Json) → List (String × Json) → Bool
  | [], [] => true
  | (k, v) :: xs, (l, w) :: ys => k == l && jsonBeq v w && jsonBeqO xs ys
  | _, _ => false

end

/-- First-match association lookup on the ordered fields of a JSON
object (Python dict keys are unique, so first match is the match). -/
def alookup : List (String × Json) → String → Option Json
  | [], _ => none
  | (k, v) :: rest, key => if k == key then some v else alookup rest key

/-- Insert-or-update for object fields: an existing key keeps its
position and gets the new value, a new key is appended — Python dict
insertion semantics. -/
def insertKV (kvs : List (String × Json)) (k : String) (v : Json) : List (String × Json) :=
  if kvs.any (fun kv => kv.1 == k) then
    kvs.map (fun kv => if kv.1 == k then (k, v) else kv)
  else kvs ++ [(k, v)]

/-- Python truthiness of a JSON-compatible value (`if x:`). -/
def pyTruthy : Json → Bool
  | .null => false
  | .bool b => b
  | .num n => n != 0
  | .str s => s != ""
  | .arr xs => !xs.isEmpty
  | .obj kvs => !kvs.isEmpty

/-! Python string operations, re-implemented structurally. -/

/-- The whitespace characters recognised by the JSON grammar (also the
common core of Python `str.strip`). -/
def jsonWsChar (c : Char) : Bool := c = ' ' || c = '\t' || c = '\n' || c = '\r'

/-- Whitespace for Python `str.strip` (JSON whitespace plus vertical tab
and form feed). -/
def pyWsChar (c : Char) : Bool := jsonWsChar c || c = '\x0b' || c = '\x0c'

/-- Drop the leading characters satisfying `ws`. -/
def dropLeading (ws : Char → Bool) : List Char → List Char
  | [] => []
  | c :: cs => if ws c then dropLeading ws cs else c :: cs

/-- Python `s.strip()`: remove leading and trailing whitespace. -/
def pyStrip (s : String) : String :=
  String.mk (dropLeading pyWsChar ((dropLeading pyWsChar s.data.reverse).reverse))

def pySplitCharAux (sep : Char) : List Char → List Char → List String
  | [], cur => [String.mk cur.reverse]
  | c :: cs, cur =>
    if c = sep then String.mk cur.reverse :: pySplitCharAux sep cs []
    else pySplitCharAux sep cs (c :: cur)

/-- Python `s.split(sep)` for a one-character separator (the source only
splits on `"\n"` and `","`): empty segments are kept. -/
def pySplitChar (sep : Char) (s : String) : List String := pySplitCharAux sep s.data []

/-- Python `s[:n]`: the first `n` characters of `s`. -/
def pySlice (s : String) (n : Nat) : String := String.mk (s.data.take n)

/-- Does `s` start with the characters `pat`? -/
def charsStartWith : List Char → List Char → Bool
  | [], _ => true
  | _ :: _, [] => false
  | a :: as, b :: bs => a == b && charsStartWith as bs

/-- Does the character list contain `pat` as a contiguous run? -/
def charsContain (pat : List Char) : List Char → Bool
  | [] => pat.isEmpty
  | c :: cs => charsStartWith pat (c :: cs) || charsContain pat cs

/-- Python `needle in s` for strings: substring containment. -/
def pySubstrTest (needle s : String) : Bool := charsContain needle.data s.data

/-- The line of subprocess output the bridge parses, exactly as computed
at line 59 of the source: `stdout.decode().strip().split("\n")[-1]`. -/
def lastStrippedLine (stdout : String) : String :=
  (pySplitChar '\n' (pyStrip stdout)).getLastD ""

/-- Modelled from the spec (§4.2 step 7): the last non-empty line of the
output, the line the spec says is parsed.  Kept separate from
`lastStrippedLine` (the code's computation) so the two can be compared. -/
def lastNonEmptyLine (stdout : String) : Option String :=
  ((pySplitChar '\n' stdout).filter (fun l => l != "")).getLast?

/-! A structural, kernel-evaluable model of `json.loads` on the JSON
fragment the bridge exchanges: objects, arrays, strings with the
escapes `\" \\ \/ \n \t \r \b \f`, integer numbers, `true`, `false`,
`null`.  Errors carry the parser's message, as `json.JSONDecodeError`
does. -/

/-- Scan a JSON string body (after the opening quote), handling the
common escapes; returns the decoded string and the rest of the input. -/
def pStringAux : List Char → List Char → Except String (String × List Char)
  | _, [] => .error "Unterminated string"
  | acc, c :: cs =>
    if c = '"' then .ok (String.mk acc.reverse, cs)
    else if c = '\\' then
      match cs with
      | [] => .error "Unterminated string"
      | e :: cs2 =>
        if e = '"' then pStringAux ('"' :: acc) cs2
        else if e = '\\' then pStringAux ('\\' :: acc) cs2
        else if e = '/' then pStringAux ('/' :: acc) cs2
        else if e = 'n' then pStringAux ('\n' :: acc) cs2
        else if e = 't' then pStringAux ('\t' :: acc) cs2
        else if e = 'r' then pStringAux ('\r' :: acc) cs2
        else if e = 'b' then pStringAux ('\x08' :: acc) cs2
        else if e = 'f' then pStringAux ('\x0c' :: acc) cs2
        else .error "Invalid escape"
    else pStringAux (c :: acc) cs

/-- Scan a run of decimal digits, accumulating their value. -/
def pDigitsAux : List Char → Nat → Nat × List Char
  | [], acc => (acc, [])
  | c :: cs, acc =>
    if c.isDigit then pDigitsAux cs (acc * 10 + (c.toNat - 48)) else (acc, c :: cs)

/-- Parse an integer JSON number (optional leading minus). -/
def pNumber : List Char → Except String (Json × List Char)
  | '-' :: cs =>
    match cs with
    | c :: _ =>
      if c.isDigit then
        let p := pDigitsAux cs 0
        .ok (.num (-(Int.ofNat p.1)), p.2)
      else .error "Expecting value"
    | [] => .error "Expecting value"
  | cs =>
    match cs with
    | c :: _ =>
      if c.isDigit then
        let p := pDigitsAux cs 0
        .ok (.num (Int.ofNat p.1), p.2)
      else .error "Expecting value"
    | [] => .error "Expecting value"

mutual

/-- Parse one JSON value from the input; `fuel` bounds the recursion
depth (`jsonLoads` supplies one unit per input character, which is
always sufficient since every recursive step consumes input). -/
def pVal : Nat → List Char → Except String (Json × List Char)
  | 0, _ => .error "Expecting value"
  | fuel + 1, cs =>
    match dropLeading jsonWsChar cs with
    | [] => .error "Expecting value"
    | 'n' :: 'u' :: 'l' :: 'l' :: rest => .ok (.null, rest)
    | 't' :: 'r' :: 'u' :: 'e' :: rest => .ok (.bool true, rest)
    | 'f' :: 'a' :: 'l' :: 's' :: 'e' :: rest => .ok (.bool false, rest)
    | '"' :: rest =>
      match pStringAux [] rest with
      | .error e => .error e
      | .ok (s, r) => .ok (.str s, r)
    | '[' :: rest =>
      match dropLeading jsonWsChar rest with
      | ']' :: r2 => .ok (.arr [], r2)
      | r2 => pArrItems fuel r2 []
    | '{' :: rest =>
      match dropLeading jsonWsChar rest with
      | '}' :: r2 => .ok (.obj [], r2)
      | r2 => pObjItems fuel r2 []
    | other => pNumber other

/-- Parse the remaining elements of a non-empty JSON array. -/
def pArrItems : Nat → List Char → List Json → Except String (Json × List Char)
  | 0, _, _ => .error "Expecting value"
  | fuel + 1, cs, acc =>
    match pVal fuel cs with
    | .error e => .error e
    | .ok (v, rest) =>
      match dropLeading jsonWsChar rest with
      | ',' :: r2 => pArrItems fuel r2 (v :: acc)
      | ']' :: r2 => .ok (.arr (v :: acc).reverse, r2)
      | _ => .error "Expecting delimiter"

/-- Parse the remaining members of a non-empty JSON object; a repeated
key overwrites in place, as in Python. -/
def pObjItems : Nat → List Char → List (String × Json) → Except String (Json × List Char)
  | 0, _, _ => .error "Expecting property name"
  | fuel + 1, cs, acc =>
    match dropLeading jsonWsChar cs with
    | '"' :: rest =>
      match pStringAux [] rest with
      | .error e => .error e
      | .ok (k, r1) =>
        match dropLeading jsonWsChar r1 with
        | ':' :: r2 =>
          match pVal fuel (dropLeading jsonWsChar r2) with
          | .error e => .error e
          | .ok (v, r3) =>
            match dropLeading jsonWsChar r3 with
            | ',' :: r4 => pObjItems fuel r4 (insertKV acc k v)
            | '}' :: r4 => .ok (.obj (insertKV acc k v), r4)
            | _ => .error "Expecting delimiter"
        | _ => .error "Expecting colon delimiter"
    | _ => .error "Expecting property name enclosed in double quotes"

end

/-- The model of `json.loads`: parse one JSON value, requiring only
whitespace after it. -/
def jsonLoads (s : String) : Except String Json :=
  match pVal (s.length + 1) s.data with
  | .error e => .error e
  | .ok (j, rest) =>
    match dropLeading jsonWsChar rest with
    | [] => .ok j
    | _ => .error "Extra data"

mutual

/-- Python `repr` of a JSON-compatible value (used by `str` on
containers). -/
def pyRepr : Json → String
  | .null => "None"
  | .bool true => "True"
  | .bool false => "False"
  | .num n => toString n
  | .str s => "\x27" ++ s ++ "\x27"
  | .arr xs => "[" ++ pyReprL xs ++ "]"
  | .obj kvs => "\x7b" ++ pyReprO kvs ++ "\x7d"

def pyReprL : List Json → String
  | [] => ""
  | [x] => pyRepr x
  | x :: xs => pyRepr x ++ ", " ++ pyReprL xs

def pyReprO : List (String × Json) → String
  | [] => ""
  | [(k, v)] => "\x27" ++ k ++ "\x27: " ++ pyRepr v
  | (k, v) :: kvs => "\x27" ++ k ++ "\x27: " ++ pyRepr v ++ ", " ++ pyReprO kvs

end

/-- Python `str` of a JSON-compatible value: a string is itself, other
values render as their repr. -/
def pyStr : Json → String
  | .str s => s
  | j => pyRepr j

/-! The tool-invocation bridge (`call_mcp_tool`, source lines 29-72). -/

/-- The exceptions that can arise inside the `try` block of
`call_mcp_tool`, in the classification of its `except` clauses:
`asyncio.TimeoutError`, `json.JSONDecodeError` (carrying the parser's
message), `fastapi.HTTPException` (status code and detail value), and
any other exception (carrying its `str`). -/
inductive PyExc where
  | timeoutError
  | jsonDecode (msg : String)
  | httpExc (status : Nat) (detail : Json)
  | otherExc (msg : String)

/-- Python `d.get(key, default)`; on a non-dict value the attribute
access raises (`AttributeError`), as it would at source lines 63-65. -/
def pyGet (j : Json) (key : String) (dflt : Json) : Except PyExc Json :=
  match j with
  | .obj kvs => .ok ((alookup kvs key).getD dflt)
  | _ => .error (.otherExc "AttributeError: object has no attribute get")

/-- Python `key in j` (source line 60): key containment for dicts,
element equality for lists, substring test for strings, `TypeError`
otherwise. -/
def pyContains (key : String) (j : Json) : Except PyExc Bool :=
  match j with
  | .obj kvs => .ok (kvs.any (fun kv => kv.1 == key))
  | .arr xs => .ok (xs.any (fun x => jsonBeq x (.str key)))
  | .str s => .ok (pySubstrTest key s)
  | _ => .error (.otherExc "TypeError: argument of type is not iterable")

/-- Python `j[key]` for a string key (source line 61). -/
def pySubscriptStr (j : Json) (key : String) : Except PyExc Json :=
  match j with
  | .obj kvs =>
    match alookup kvs key with
    | some v => .ok v
    | none => .error (.otherExc ("KeyError: " ++ key))
  | _ => .error (.otherExc "TypeError: indices must be integers")

/-- Python `j[0]` (source line 65). -/
def pyIndexZero (j : Json) : Except PyExc Json :=
  match j with
  | .arr (x :: _) => .ok x
  | .arr [] => .error (.otherExc "IndexError: list index out of range")
  | .str s =>
    match s.data with
    | [] => .error (.otherExc "IndexError: string index out of range")
    | c :: _ => .ok (.str (String.mk [c]))
  | .obj _ => .error (.otherExc "KeyError: 0")
  | _ => .error (.otherExc "TypeError: object is not subscriptable")

/-- `json.loads` demands a string argument; anything else raises
`TypeError` (not `JSONDecodeError`). -/
def jsonLoadsArg (j : Json) : Except PyExc String :=
  match j with
  | .str s => .ok s
  | _ => .error (.otherExc "TypeError: the JSON object must be str bytes or bytearray")

/-- The observable behaviour of the spawned subprocess for one call:
the spawn itself fails, or no reply arrives within the timeout budget,
or the process completes with an exit code and captured stdout/stderr
(already decoded to text). -/
inductive ProcBehavior where
  | spawnFail (msg : String)
  | timeout
  | completes (returncode : Int) (stdout : String) (stderr : String)

/-- Does this behaviour describe a failed spawn? -/
def ProcBehavior.spawnFailed : ProcBehavior → Bool
  | .spawnFail _ => true
  | _ => false

/-- Process-management events the bridge performs, in order: a
successful `create_subprocess_exec`, the write of the serialized
envelope by `communicate`, the end-of-input signal that follows it, the
bounded wait for process exit (`asyncio.wait_for`, with its timeout in
seconds), and a forcible kill of the child.  The source never performs
a kill; the constructor exists so its absence can be stated. -/
inductive Event where
  | spawn
  | writeStdin (payload : Json)
  | closeStdin
  | awaitExit (timeoutSeconds : Nat)
  | terminate

def Event.isSpawn : Event → Bool
  | .spawn => true
  | _ => false

def Event.isWriteStdin : Event → Bool
  | .writeStdin _ => true
  | _ => false

def Event.isCloseStdin : Event → Bool
  | .closeStdin => true
  | _ => false

def Event.isTerminate : Event → Bool
  | .terminate => true
  | _ => false

/-- What the bridge hands the route layer: the decoded ToolResult, or
an HTTP error with a status code and detail value. -/
inductive BridgeResult where
  | ok (result : Json)
  | httpError (status : Nat) (detail : Json)

def BridgeResult.isOk : BridgeResult → Bool
  | .ok _ => true
  | _ => false

/-- The timeout passed to `asyncio.wait_for` (source line 52), in
seconds. -/
def bridgeTimeout : Nat := 30

/-- The JSON-RPC envelope built at source lines 33-38: fixed protocol
version `"2.0"`, fixed request id `1`, method `"tools/call"`, and
params carrying the tool name and arguments. -/
def rpcEnvelope (tool_name : String) (arguments : Json) : Json :=
  .obj [("jsonrpc", .str "2.0"), ("id", .num 1), ("method", .str "tools/call"),
        ("params", .obj [("name", .str tool_name), ("arguments", arguments)])]

/-- Source lines 59-65: parse the selected output line, reject replies
carrying an `"error"` field, then extract `result.content[0].text`
(defaulting absent pieces as the source does) and parse that text as
the final ToolResult. -/
def parseAndExtract (line : String) : Except PyExc Json :=
  match jsonLoads line with
  | .error msg => .error (.jsonDecode msg)
  | .ok response =>
    match pyContains "error" response with
    | .error e => .error e
    | .ok true =>
      match pySubscriptStr response "error" with
      | .error e => .error e
      | .ok errval => .error (.httpExc 500 errval)
    | .ok false =>
      match pyGet response "result" (.obj []) with
      | .error e => .error e
      | .ok result =>
        match pyGet result "content" (.arr [.obj []]) with
        | .error e => .error e
        | .ok content =>
          if pyTruthy content then
            match pyIndexZero content with
            | .error e => .error e
            | .ok c0 =>
              match pyGet c0 "text" (.str "\x7b\x7d") with
              | .error e => .error e
              | .ok t =>
                match jsonLoadsArg t with
                | .error e => .error e
                | .ok ts =>
                  match jsonLoads ts with
                  | .error msg => .error (.jsonDecode msg)
                  | .ok v => .ok v
          else .ok (.obj [])

/-- The body of the `try` block of `call_mcp_tool` (source lines
31-65), as a function of the subprocess behaviour: a failed spawn
raises, a timeout raises `asyncio.TimeoutError`, a non-zero exit raises
`HTTPException(500, "VegaMCP error: " + stderr[:500])`, and otherwise
the last stripped output line is parsed and the result extracted. -/
def bridgeBody : ProcBehavior → Except PyExc Json
  | .spawnFail msg => .error (.otherExc msg)
  | .timeout => .error .timeoutError
  | .completes rc stdout stderr =>
    if rc ≠ 0 then
      .error (.httpExc 500 (.str ("VegaMCP error: " ++ pySlice stderr 500)))
    else parseAndExtract (lastStrippedLine stdout)

/-- Starlette `str(HTTPException)`: `f"{status_code}: {detail}"`. -/
def strOfHTTPException (status : Nat) (detail : Json) : String :=
  toString status ++ ": " ++ pyStr detail

/-- The `except` clauses of `call_mcp_tool` (source lines 67-72), in
order: `asyncio.TimeoutError` becomes a 504; `json.JSONDecodeError`
becomes a 500 with the parser's message; every other exception —
including the `HTTPException`s raised inside the `try` block at lines
56 and 61, since `HTTPException` is an `Exception` — is caught by the
blanket `except Exception` and re-raised as `HTTPException(500,
str(e))`. -/
def exceptClauses : Except PyExc Json → BridgeResult
  | .ok v => .ok v
  | .error .timeoutError => .httpError 504 (.str "VegaMCP request timed out")
  | .error (.jsonDecode msg) =>
    .httpError 500 (.str ("Invalid response from VegaMCP: " ++ msg))
  | .error (.httpExc status detail) =>
    .httpError 500 (.str (strOfHTTPException status detail))
  | .error (.otherExc msg) => .httpError 500 (.str msg)

/-- One complete bridge call (source lines 29-72), also recording the
process-management events it performs.  A call that completes or times
out has spawned the child, written the single serialized envelope,
signalled end-of-input, and awaited the exit under the 30-second
budget; a failed spawn performs no process events.  No path performs a
kill. -/
def call_mcp_tool_traced (tool_name : String) (arguments : Json)
    (beh : ProcBehavior) : List Event × BridgeResult :=
  (match beh with
   | .spawnFail _ => []
   | _ => [.spawn, .writeStdin (rpcEnvelope tool_name arguments), .closeStdin,
           .awaitExit bridgeTimeout],
   exceptClauses (bridgeBody beh))

/-- The value/error `call_mcp_tool` delivers to the route layer. -/
def call_mcp_tool (tool_name : String) (arguments : Json)
    (beh : ProcBehavior) : BridgeResult :=
  (call_mcp_tool_traced tool_name arguments beh).2

/-! The route layer: argument-map construction and request validation
for the endpoints the claims mention (source lines 79-305). -/

/-- The `if value:` guard the routes apply to an optional string field
before copying it into the argument map: the key is added only when the
field is present and truthy (a non-empty string).  Used for
`coordinator`/`status` (lines 160-163, 180-183), `target_agent` (line
200), `template` (line 237) and `domain`/`type` (lines 288-291). -/
def optStrEntry (key : String) : Option String → List (String × Json)
  | some s => if s == "" then [] else [(key, .str s)]
  | none => []

/-- Argument map of `GET /agents` (source lines 159-163). -/
def list_agents_args (coordinator status : Option String) : Json :=
  .obj (optStrEntry "coordinator" coordinator ++ optStrEntry "status" status)

/-- `GET /agents` (source lines 153-164). -/
def list_agents (coordinator status : Option String) (beh : ProcBehavior) :
    List Event × BridgeResult :=
  call_mcp_tool_traced "swarm_list_agents" (list_agents_args coordinator status) beh

/-- Argument map of `POST /broadcast` (source lines 179-183). -/
def broadcast_args (message : String) (coordinator status : Option String) : Json :=
  .obj (("message", Json.str message) ::
    (optStrEntry "coordinator" coordinator ++ optStrEntry "status" status))

/-- `POST /broadcast` (source lines 176-184). -/
def broadcast_message (message : String) (coordinator status : Option String)
    (beh : ProcBehavior) : List Event × BridgeResult :=
  call_mcp_tool_traced "swarm_broadcast" (broadcast_args message coordinator status) beh

/-- The validated body of `POST /tasks` (source lines 79-84). -/
structure CreateTaskRequest where
  task_type : String
  priority : Int
  input_data : Json
  target_agent : Option String
  timeout : Int

/-- Pydantic validation of the `POST /tasks` body: `task_type` is
required, `priority` defaults to 2 and must lie in 0..3 (`ge=0, le=3`),
`timeout` defaults to 300 and must lie in 10..3600, `input_data`
defaults to the empty object.  A violated constraint is rejected with a
message (FastAPI surfaces it as a 422 response). -/
def validateCreateTask (task_type : Option String) (priority : Option Int)
    (input_data : Option Json) (target_agent : Option String)
    (timeout : Option Int) : Except String CreateTaskRequest :=
  match task_type with
  | none => .error "task_type: field required"
  | some tt =>
    let p := priority.getD 2
    if p < 0 then .error "priority: ensure this value is greater than or equal to 0"
    else if 3 < p then .error "priority: ensure this value is less than or equal to 3"
    else
      let tmo := timeout.getD 300
      if tmo < 10 then .error "timeout: ensure this value is greater than or equal to 10"
      else if 3600 < tmo then .error "timeout: ensure this value is less than or equal to 3600"
      else .ok ⟨tt, p, input_data.getD (.obj []), target_agent, tmo⟩

/-- Argument map of `POST /tasks` (source lines 194-201): the four
always-present keys in source order, then `target_agent` only when
truthy. -/
def create_task_args (r : CreateTaskRequest) : Json :=
  .obj ([("task_type", Json.str r.task_type), ("priority", Json.num r.priority),
         ("input_data", r.input_data), ("timeout", Json.num r.timeout)] ++
        optStrEntry "target_agent" r.target_agent)

/-- `POST /tasks` handler body (source lines 191-202), applied to an
already validated request. -/
def create_task (r : CreateTaskRequest) (beh : ProcBehavior) :
    List Event × BridgeResult :=
  call_mcp_tool_traced "swarm_create_task" (create_task_args r) beh

/-- The full `POST /tasks` endpoint: FastAPI validates the body first
and answers 422 without running the handler (hence without any bridge
call) when validation fails. -/
def create_task_endpoint (task_type : Option String) (priority : Option Int)
    (input_data : Option Json) (target_agent : Option String)
    (timeout : Option Int) (beh : ProcBehavior) : List Event × BridgeResult :=
  match validateCreateTask task_type priority input_data target_agent timeout with
  | .error msg => ([], .httpError 422 (.str msg))
  | .ok r => create_task r beh

/-- Argument map of `POST /workflows` (source lines 236-240):
`template` is guarded by string truthiness, `custom_workflow` by dict
truthiness. -/
def workflow_args (template : Option String) (custom_workflow : Option Json)
    (input : Json) (priority : Int) : Json :=
  .obj ([("input", input), ("priority", Json.num priority)] ++
        optStrEntry "template" template ++
        (match custom_workflow with
         | some j => if pyTruthy j then [("custom_workflow", j)] else []
         | none => []))

/-- Argument map of `POST /memory/search` (source lines 287-291). -/
def search_memory_args (query : String) (domain type : Option String)
    (limit : Int) : Json :=
  .obj ([("query", Json.str query), ("limit", Json.num limit)] ++
        optStrEntry "domain" domain ++ optStrEntry "type" type)

/-- `POST /memory/search` (source lines 284-292). -/
def search_memory (query : String) (domain type : Option String) (limit : Int)
    (beh : ProcBehavior) : List Event × BridgeResult :=
  call_mcp_tool_traced "search_graph" (search_memory_args query domain type limit) beh

/-- Argument map of `GET /memory/nodes` (source line 304):
`[n.strip() for n in names.split(",")]`. -/
def open_nodes_args (names : String) : Json :=
  .obj [("names", .arr ((pySplitChar ',' names).map (fun n => Json.str (pyStrip n))))]

/-- `GET /memory/nodes` (source lines 301-305). -/
def open_nodes (names : String) (beh : ProcBehavior) : List Event × BridgeResult :=
  call_mcp_tool_traced "open_nodes" (open_nodes_args names) beh

/-! Helper lemmas and derived notions shared by the claim theorems. -/

/-- The HTTP-visible outcome of parsing the nested `content[0].text`
string: the parsed value as the ToolResult on success, the
ProtocolError response (500, parser message) on failure. -/
def nestedParseOutcome (txt : String) : BridgeResult :=
  match jsonLoads txt with
  | .ok v => .ok v
  | .error msg => .httpError 500 (.str ("Invalid response from VegaMCP: " ++ msg))

/-- On a zero exit status, the call is the except-wrapped
parse-and-extract of the last stripped output line. -/
theorem call_completes_zero (t : String) (a : Json) (stdout stderr : String) :
    call_mcp_tool t a (.completes 0 stdout stderr) =
      exceptClauses (parseAndExtract (lastStrippedLine stdout)) := rfl

/-- The tail of the extraction path: wrapping the nested parse in the
except clauses yields exactly `nestedParseOutcome`. -/
theorem exceptClauses_nested (txt : String) :
    exceptClauses (match jsonLoads txt with
      | .error msg => .error (.jsonDecode msg)
      | .ok v => .ok v) = nestedParseOutcome txt := by
  cases h : jsonLoads txt <;> simp only [nestedParseOutcome, h, exceptClauses]

/-- Claim C1: for a zero-exit call whose last parsed output line is a
JSON object without an "error" field, the bridge returns the JSON parse
of the "text" field of the first element of the object's
result.content array (the literal empty-object text standing in when
the "text" field is absent), a failure of that nested parse being the
ProtocolError response; in particular the round trip against a tool
echoing a result/content/text envelope around an ok-object yields that
object as the ToolResult. -/
theorem claim_C1_result_extraction (t : String) (a : Json)
    (stdout stderr txt : String) (kvs rkvs ckvs : List (String × Json))
    (rest : List Json)
    (hparse : jsonLoads (lastStrippedLine stdout) = .ok (.obj kvs))
    (hnoerr : kvs.any (fun kv => kv.1 == "error") = false)
    (hresult : alookup kvs "result" = some (.obj rkvs))
    (hcontent : alookup rkvs "content" = some (.arr (Json.obj ckvs :: rest)))
    (htext : alookup ckvs "text" = some (.str txt) ∨
             (alookup ckvs "text" = none ∧ txt = "\x7b\x7d")) :
    call_mcp_tool t a (.completes 0 stdout stderr) = nestedParseOutcome txt ∧
    call_mcp_tool "echo" (.obj [])
      (.completes 0 "\x7b\"result\":\x7b\"content\":[\x7b\"text\":\"\x7b\\\"ok\\\":true\x7d\"\x7d]\x7d\x7d" "") =
      .ok (.obj [("ok", .bool true)]) := by
  refine ⟨?_, rfl⟩
  rw [call_completes_zero]
  unfold parseAndExtract
  rw [hparse]
  simp only [pyContains, hnoerr]
  simp only [pyGet, hresult, hcontent, Option.getD]
  simp only [pyTruthy, List.isEmpty, Bool.not_false, if_true, pyIndexZero]
  rcases htext with h | ⟨h, rfl⟩
  · simp only [pyGet, h, Option.getD, jsonLoadsArg]
    exact exceptClauses_nested txt
  · simp only [pyGet, h, Option.getD, jsonLoadsArg]
    exact exceptClauses_nested "\x7b\x7d"

/-- Witness for claim C1 at a concrete zero-exit reply whose content
text is the number three. -/
theorem claim_C1_result_extraction_witness :
    call_mcp_tool "t" (.obj [])
      (.completes 0 "\x7b\"result\": \x7b\"content\": [\x7b\"text\": \"3\"\x7d]\x7d\x7d" "") =
      nestedParseOutcome "3" ∧
    call_mcp_tool "echo" (.obj [])
      (.completes 0 "\x7b\"result\":\x7b\"content\":[\x7b\"text\":\"\x7b\\\"ok\\\":true\x7d\"\x7d]\x7d\x7d" "") =
      .ok (.obj [("ok", .bool true)]) :=
  claim_C1_result_extraction "t" (.obj [])
    "\x7b\"result\": \x7b\"content\": [\x7b\"text\": \"3\"\x7d]\x7d\x7d" "" "3"
    [("result", .obj [("content", .arr [.obj [("text", .str "3")]])])]
    [("content", .arr [.obj [("text", .str "3")]])]
    [("text", .str "3")] []
    rfl rfl rfl rfl (.inl rfl)

/-- Counterexample to claim C2 as stated: when the output is the empty
object followed by a line holding a single space, the last non-empty
line is that whitespace-only line, which does not parse as JSON — so
the claim mandates a ProtocolError — yet the call succeeds, because the
code strips trailing whitespace before selecting the line it parses. -/
theorem claim_C2_counterexample :
    lastNonEmptyLine "\x7b\x7d\n " = some " " ∧
    jsonLoads " " = .error "Expecting value" ∧
    call_mcp_tool "swarm_list_agents" (.obj []) (.completes 0 "\x7b\x7d\n " "") =
      .ok (.obj []) ∧
    (call_mcp_tool "swarm_list_agents" (.obj []) (.completes 0 "\x7b\x7d\n " "")).isOk =
      true :=
  ⟨rfl, rfl, rfl, rfl⟩

/-- Claim C2 as amended: for every zero-exit call the bridge parses
exactly the last line of the whitespace-stripped standard-output text
(the last line containing a non-whitespace character, trailing
whitespace-only lines being skipped rather than parsed): the reply
depends on the output only through that line, so earlier diagnostic
lines never affect the result, and if that line fails to parse the
call is the ProtocolError response carrying the parser's message. -/
theorem claim_C2_amended_line_selection (t : String) (a : Json)
    (s1 s2 stderr : String) :
    (lastStrippedLine s1 = lastStrippedLine s2 →
      call_mcp_tool t a (.completes 0 s1 stderr) =
        call_mcp_tool t a (.completes 0 s2 stderr)) ∧
    (∀ msg, jsonLoads (lastStrippedLine s1) = .error msg →
      call_mcp_tool t a (.completes 0 s1 stderr) =
        .httpError 500 (.str ("Invalid response from VegaMCP: " ++ msg))) ∧
    call_mcp_tool t a (.completes 0 "diagnostic noise\n\x7b\"result\": \x7b\x7d\x7d" stderr) =
      .ok (.obj []) := by
  refine ⟨fun h => ?_, fun msg h => ?_, rfl⟩
  · rw [call_completes_zero, call_completes_zero, h]
  · rw [call_completes_zero]
    unfold parseAndExtract
    rw [h]
    rfl

/-- Witness for the amended claim C2: two outputs with different
diagnostic first lines but the same final line give the same reply, and
an unparseable final line gives the ProtocolError response. -/
theorem claim_C2_amended_witness :
    call_mcp_tool "t" (.obj []) (.completes 0 "first diagnostic\n\x7b\x7d" "") =
      call_mcp_tool "t" (.obj []) (.completes 0 "other diagnostic\n\x7b\x7d" "") ∧
    call_mcp_tool "t" (.obj []) (.completes 0 "diag\n junk" "") =
      .httpError 500 (.str ("Invalid response from VegaMCP: " ++ "Expecting value")) :=
  ⟨(claim_C2_amended_line_selection "t" (.obj [])
      "first diagnostic\n\x7b\x7d" "other diagnostic\n\x7b\x7d" "").1 rfl,
   (claim_C2_amended_line_selection "t" (.obj [])
      "diag\n junk" "" "").2.1 "Expecting value" rfl⟩

/-- Claim C3, shown to be a code bug: a zero-exit reply that carries an
"error" field is answered with status 500, but the detail is not the
error field's value: the `HTTPException(500, response["error"])` raised
at source line 61 is caught by the blanket `except Exception` at line
71 and re-raised with `detail=str(e)`, so the body carries the
stringification `"500: boom"` instead of the verbatim payload
`"boom"`. -/
theorem claim_C3_remote_error_stringified :
    call_mcp_tool "t" (.obj []) (.completes 0 "\x7b\"error\": \"boom\"\x7d" "") =
      .httpError 500 (.str (strOfHTTPException 500 (.str "boom"))) ∧
    strOfHTTPException 500 (.str "boom") = "500: boom" ∧
    (("500: boom" : String) == "boom") = false :=
  ⟨rfl, rfl, rfl⟩

/-- Claim C4, shown to be a code bug: on the timeout path the call
fails with the 504 response, but the recorded process events end with
the bounded wait — no kill of the still-running child ever happens, on
this or any other path, because the source contains no
`proc.kill()`/`terminate()` and `asyncio.wait_for` only cancels the
`communicate()` coroutine. -/
theorem claim_C4_no_teardown_on_timeout :
    (∀ (t : String) (a : Json),
      call_mcp_tool_traced t a .timeout =
        ([.spawn, .writeStdin (rpcEnvelope t a), .closeStdin, .awaitExit 30],
         .httpError 504 (.str "VegaMCP request timed out"))) ∧
    (∀ (t : String) (a : Json) (beh : ProcBehavior),
      ((call_mcp_tool_traced t a beh).1.all (fun e => !e.isTerminate)) = true) :=
  ⟨fun _ _ => rfl, fun t a beh => by cases beh <;> rfl⟩

/-- Claim C5: a call whose subprocess produces no reply within the
fixed 30-second budget fails with the 504 timeout response and returns
no partial result; the wait is bounded by exactly `bridgeTimeout = 30`
seconds. -/
theorem claim_C5_timeout_yields_504 (t : String) (a : Json) :
    call_mcp_tool t a .timeout = .httpError 504 (.str "VegaMCP request timed out") ∧
    (call_mcp_tool t a .timeout).isOk = false ∧
    bridgeTimeout = 30 ∧
    (call_mcp_tool_traced t a .timeout).1 =
      [.spawn, .writeStdin (rpcEnvelope t a), .closeStdin, .awaitExit bridgeTimeout] :=
  ⟨rfl, rfl, rfl, rfl⟩

/-- Claim C6: a call whose subprocess exits non-zero fails with the
500 transport-error response and produces no ToolResult; its message
embeds at most 500 characters of the error-stream text (the
`HTTPException` from source line 56 is re-wrapped by the blanket
`except Exception`, prefixing `str(e)`, but the stderr-derived part is
still the 500-character slice). -/
theorem claim_C6_transport_error (t : String) (a : Json) (rc : Int)
    (stdout stderr : String) (h : rc ≠ 0) :
    call_mcp_tool t a (.completes rc stdout stderr) =
      .httpError 500
        (.str (strOfHTTPException 500 (.str ("VegaMCP error: " ++ pySlice stderr 500)))) ∧
    (pySlice stderr 500).length ≤ 500 ∧
    (call_mcp_tool t a (.completes rc stdout stderr)).isOk = false := by
  have hb : bridgeBody (.completes rc stdout stderr) =
      .error (.httpExc 500 (.str ("VegaMCP error: " ++ pySlice stderr 500))) := by
    simp only [bridgeBody]
    rw [if_pos h]
  refine ⟨?_, ?_, ?_⟩
  · show exceptClauses (bridgeBody (.completes rc stdout stderr)) = _
    rw [hb]
    rfl
  · exact List.length_take_le 500 stderr.data
  · show (exceptClauses (bridgeBody (.completes rc stdout stderr))).isOk = false
    rw [hb]
    rfl

/-- Witness for claim C6 at exit code 1. -/
theorem claim_C6_transport_error_witness :
    call_mcp_tool "t" (.obj []) (.completes 1 "" "bad stuff") =
      .httpError 500
        (.str (strOfHTTPException 500 (.str ("VegaMCP error: " ++ pySlice "bad stuff" 500)))) ∧
    (pySlice "bad stuff" 500).length ≤ 500 ∧
    (call_mcp_tool "t" (.obj []) (.completes 1 "" "bad stuff")).isOk = false :=
  claim_C6_transport_error "t" (.obj []) 1 "" "bad stuff" (by decide)

/-- Claim C7: every call whose spawn succeeds performs exactly one
spawn and writes exactly one serialized envelope — carrying protocol
version "2.0", request id 1, method "tools/call" and params
holding the tool name and arguments — before signalling end-of-input
(the write strictly precedes the close in the event list); no
subprocess outlives or precedes the call in the model, each call's
trace beginning with its own spawn. -/
theorem claim_C7_single_envelope (t : String) (a : Json) (beh : ProcBehavior)
    (h : beh.spawnFailed = false) :
    (call_mcp_tool_traced t a beh).1 =
      [.spawn, .writeStdin (rpcEnvelope t a), .closeStdin, .awaitExit bridgeTimeout] ∧
    ((call_mcp_tool_traced t a beh).1.filter Event.isSpawn).length = 1 ∧
    ((call_mcp_tool_traced t a beh).1.filter Event.isWriteStdin).length = 1 ∧
    rpcEnvelope t a =
      .obj [("jsonrpc", .str "2.0"), ("id", .num 1), ("method", .str "tools/call"),
            ("params", .obj [("name", .str t), ("arguments", a)])] := by
  cases beh with
  | spawnFail msg => exact absurd h (by simp [ProcBehavior.spawnFailed])
  | timeout => exact ⟨rfl, rfl, rfl, rfl⟩
  | completes rc stdout stderr => exact ⟨rfl, rfl, rfl, rfl⟩

/-- Witness for claim C7 on a completing call. -/
theorem claim_C7_single_envelope_witness :
    (call_mcp_tool_traced "swarm_list_agents" (.obj []) (.completes 0 "\x7b\x7d" "")).1 =
      [.spawn, .writeStdin (rpcEnvelope "swarm_list_agents" (.obj [])), .closeStdin,
       .awaitExit bridgeTimeout] ∧
    ((call_mcp_tool_traced "swarm_list_agents" (.obj [])
        (.completes 0 "\x7b\x7d" "")).1.filter Event.isSpawn).length = 1 ∧
    ((call_mcp_tool_traced "swarm_list_agents" (.obj [])
        (.completes 0 "\x7b\x7d" "")).1.filter Event.isWriteStdin).length = 1 ∧
    rpcEnvelope "swarm_list_agents" (.obj []) =
      .obj [("jsonrpc", .str "2.0"), ("id", .num 1), ("method", .str "tools/call"),
            ("params", .obj [("name", .str "swarm_list_agents"), ("arguments", .obj [])])] :=
  claim_C7_single_envelope "swarm_list_agents" (.obj []) (.completes 0 "\x7b\x7d" "") rfl

/-- Claim C8: a POST /tasks body whose priority lies outside 0..3 —
here task_type "research" with priority 5 — is rejected with the
422 response before the bridge runs: whatever the subprocess would
have done, the event list is empty, so no child process is spawned. -/
theorem claim_C8_priority_range_rejected (input_data : Option Json)
    (target_agent : Option String) (timeout : Option Int) (beh : ProcBehavior) :
    create_task_endpoint (some "research") (some 5) input_data target_agent timeout beh =
      ([], .httpError 422
        (.str "priority: ensure this value is less than or equal to 3")) ∧
    ((create_task_endpoint (some "research") (some 5) input_data target_agent timeout
        beh).1.filter Event.isSpawn).length = 0 :=
  ⟨rfl, rfl⟩

/-- Claim C9: GET /memory/nodes splits the names query parameter on
commas and strips each entry, so "a,b, c" becomes the argument list
["a","b","c"], and empty segments survive as empty strings ("a,,b,"
keeps its two empty entries); the argument map carries them under the
"names" key of the "open_nodes" tool call. -/
theorem claim_C9_names_split (names : String) (beh : ProcBehavior) :
    open_nodes names beh =
      call_mcp_tool_traced "open_nodes"
        (.obj [("names",
          .arr ((pySplitChar ',' names).map (fun n => Json.str (pyStrip n))))]) beh ∧
    open_nodes_args "a,b, c" = .obj [("names", .arr [.str "a", .str "b", .str "c"])] ∧
    open_nodes_args "a,,b," =
      .obj [("names", .arr [.str "a", .str "", .str "b", .str ""])] :=
  ⟨rfl, rfl, rfl⟩

/-- Claim C10: for every optional string field the routes guard with
`if value:` — coordinator/status on GET /agents and POST /broadcast,
target_agent on POST /tasks, template on POST /workflows, domain/type
on POST /memory/search — supplying the empty string builds exactly the
argument map built when the field is omitted, the key being absent in
both cases, because truthiness rather than presence is tested. -/
theorem claim_C10_empty_string_like_omitted (co st : Option String)
    (message query task_type : String) (input input_data : Json)
    (priority timeout limit : Int) (custom_workflow : Option Json)
    (domain ty : Option String) :
    list_agents_args (some "") st = list_agents_args none st ∧
    list_agents_args co (some "") = list_agents_args co none ∧
    broadcast_args message (some "") st = broadcast_args message none st ∧
    broadcast_args message co (some "") = broadcast_args message co none ∧
    create_task_args ⟨task_type, priority, input_data, some "", timeout⟩ =
      create_task_args ⟨task_type, priority, input_data, none, timeout⟩ ∧
    workflow_args (some "") custom_workflow input priority =
      workflow_args none custom_workflow input priority ∧
    search_memory_args query (some "") ty limit =
      search_memory_args query none ty limit ∧
    search_memory_args query domain (some "") limit =
      search_memory_args query domain none limit ∧
    optStrEntry "coordinator" (some "") = [] :=
  ⟨rfl, rfl, rfl, rfl, rfl, rfl, rfl, rfl, rfl⟩
